import Mathlib

/-!
Verification development for the satellite weather imaging pipeline
(src/color_plus.py and src/convert_geodata.py).  The definitions below are
shallow embeddings of the corresponding Python functions; each definition
names the source symbol and line range it was translated from.  Machine
floats are modelled by exact rationals or reals; numpy NaN sentinels are
modelled by Option.
-/

namespace ColorPlus

/-! ## Path selection (src/color_plus.py, determine_processing_path, lines 556-583) -/

/-- Embedding of determine_processing_path (src/color_plus.py lines 556-583).
The Python function reads the module globals DATA_LEVEL, HAS_DOWNLOAD_SUMMARY and
DOMAIN_TYPE; here they are explicit arguments.  It returns the string
level2_aware when the data level is level2 or a download summary is present,
else enhanced_full_disk when the domain type is full_disk, else standard_conus. -/
def determine_processing_path (data_level : String) (has_summary : Bool)
    (domain_type : String) : String :=
  if data_level = "level2" ∨ has_summary = true then "level2_aware"
  else if domain_type = "full_disk" then "enhanced_full_disk"
  else "standard_conus"

/-! ## Coordinate validity mask (src/color_plus.py, create_valid_coordinate_mask, lines 589-608) -/

/-- Earth radius constant used by create_valid_coordinate_mask (src line 591). -/
noncomputable def earth_radius : ℝ := 6378137.0

/-- Maximum viewing angle, arcsin of Earth radius over satellite height
(src line 592). -/
noncomputable def max_viewing_angle (sat_height : ℝ) : ℝ :=
  Real.arcsin (earth_radius / sat_height)

/-- Per-pixel validity predicate of create_valid_coordinate_mask
(src lines 599-600): a pixel at projection coordinates (x, y) is valid when
x squared plus y squared is at most the squared maximum viewing angle. -/
def create_valid_coordinate_mask (sat_height x y : ℝ) : Prop :=
  x ^ 2 + y ^ 2 ≤ (max_viewing_angle sat_height) ^ 2

/-! ## Per-channel pipeline operation order
(standard_conus_worker, src lines 1361-1421; level2_aware_worker, src lines 788-895).
The three array-level operations are abstracted as trace symbols in the exact
order the worker bodies invoke them: resample stands for the call to
fast_upscale_array, calibrate for radiance_to_brightness_temp or the visible
kappa0 / max normalisation, enhance for enhance_ir_channel or
enhance_visible_channel. -/

/-- Pipeline operation symbols for the per-channel worker traces. -/
inductive PipelineOp
  | resample
  | calibrate
  | enhance
deriving DecidableEq, Repr

/-- Operation trace of standard_conus_worker (src lines 1361-1421), also used
unchanged by process_enhanced_full_disk (src line 1811).  When the native shape
differs from the target shape the raw radiance is upscaled FIRST (lines
1378-1383), and only then calibrated (lines 1385-1417) and enhanced (lines
1402, 1419).  The shape_mismatch flag records whether current_shape differs
from target_shape; a mismatch always yields a zoom factor different from
(1.0, 1.0), so the inner guard at line 1381 is equivalent to the mismatch. -/
def standard_conus_worker_trace (shape_mismatch : Bool) : List PipelineOp :=
  (if shape_mismatch then [PipelineOp.resample] else []) ++
    [PipelineOp.calibrate, PipelineOp.enhance]

/-- Operation trace of level2_aware_worker (src lines 788-895).  Level 1b input
is calibrated first (lines 805-837), then upscaled when the native shape
differs from the target (lines 839-847), then enhanced (lines 849-853).
Level 2 input is already calibrated (line 806), so only the optional resample
and the enhancement occur. -/
def level2_aware_worker_trace (is_level2 : Bool) (shape_mismatch : Bool) :
    List PipelineOp :=
  (if is_level2 then [] else [PipelineOp.calibrate]) ++
    ((if shape_mismatch then [PipelineOp.resample] else []) ++ [PipelineOp.enhance])

/-- The order asserted by the specification for a level-1b channel task:
calibration, then the optional resample, then enhancement. -/
def calibrate_first_trace (shape_mismatch : Bool) : List PipelineOp :=
  PipelineOp.calibrate ::
    ((if shape_mismatch then [PipelineOp.resample] else []) ++ [PipelineOp.enhance])

/-- The order actually implemented by standard_conus_worker: the optional
resample on the raw radiance, then calibration, then enhancement. -/
def resample_first_trace (shape_mismatch : Bool) : List PipelineOp :=
  (if shape_mismatch then [PipelineOp.resample] else []) ++
    [PipelineOp.calibrate, PipelineOp.enhance]

/-! ## Resampling (src/color_plus.py, fast_upscale_array, lines 749-772) -/

/-- A 2-D array: a shape and a total indexing function, the model of a numpy
array used throughout this development. -/
structure Array2 where
  rows : Nat
  cols : Nat
  data : Nat → Nat → ℝ

/-- Python int() applied to a rational: truncation toward zero (floor for
nonnegative values, ceiling for negative ones). -/
def pyInt (q : ℚ) : ℤ :=
  if 0 ≤ q then ⌊q⌋ else ⌈q⌉

/-- Modelled from the spec: the Numba upscaling kernels
numba_fast_upscale_2x, numba_fast_upscale_4x and numba_bilinear_upscale called
by fast_upscale_array are defined in a notebook cell that is not under src;
the spec describes them as fixed-ratio replication/interpolation and general
bilinear interpolation that fill a preallocated array of the target shape.
Only that preallocated shape matters to the claims below, so the per-pixel
value is modelled by nearest-neighbour replication. -/
def upscale_kernel (a : Array2) (zoom : ℚ × ℚ) : Nat → Nat → ℝ :=
  fun i j => a.data (⌊(i : ℚ) / zoom.1⌋.toNat) (⌊(j : ℚ) / zoom.2⌋.toNat)

/-- Embedding of fast_upscale_array (src lines 749-772).  A zoom factor of
exactly (1.0, 1.0) returns the input array unchanged (lines 751-752);
otherwise the target shape is computed with Python int(), that is truncation,
of shape times zoom (line 754), and a preallocated array of that shape is
filled by the upscaling kernel (lines 756-770; NUMBA_AVAILABLE is set to True
at src line 14, so the scipy fallback at line 772 is unreachable). -/
def fast_upscale_array (a : Array2) (zoom : ℚ × ℚ) : Array2 :=
  if zoom.1 = 1 ∧ zoom.2 = 1 then a
  else
    { rows := (pyInt ((a.rows : ℚ) * zoom.1)).toNat
      cols := (pyInt ((a.cols : ℚ) * zoom.2)).toNat
      data := upscale_kernel a zoom }

/-- A concrete 3 by 3 zero array used to exhibit the truncation behaviour of
fast_upscale_array. -/
noncomputable def sample_array : Array2 :=
  { rows := 3, cols := 3, data := fun _ _ => 0 }

/-! ## IR calibration
(EnhancedIRChannelProcessor, src/color_plus.py lines 346-404) -/

/-- The four Planck calibration constants of an IR channel record. -/
structure PlanckConstants where
  fk1 : ℝ
  fk2 : ℝ
  bc1 : ℝ
  bc2 : ℝ

/-- The C13 row of the static constants table (src line 356): central
wavelength followed by fk1, fk2, bc1, bc2.  It doubles as the default for
unrecognized channel codes (src lines 375, 383). -/
noncomputable def C13_row : ℝ × PlanckConstants :=
  (10.3499, ⟨7.47300e2, 8.68467e2, 0.53083, 0.99111⟩)

/-- Embedding of EnhancedIRChannelProcessor.CHANNEL_CONSTANTS
(src lines 349-360): per-channel central wavelength and Planck constants. -/
noncomputable def CHANNEL_CONSTANTS (code : String) : Option (ℝ × PlanckConstants) :=
  match code with
  | "C07" => some (3.8853, ⟨5.44958e3, 9.20062e2, 0.43616, 0.99715⟩)
  | "C08" => some (6.2428, ⟨2.08380e3, 8.97668e2, 0.27387, 0.99636⟩)
  | "C09" => some (6.9419, ⟨1.67380e3, 8.95963e2, 0.30802, 0.99574⟩)
  | "C10" => some (7.3414, ⟨1.49979e3, 8.94765e2, 0.33708, 0.99536⟩)
  | "C11" => some (8.4447, ⟨1.12855e3, 8.89377e2, 0.39298, 0.99419⟩)
  | "C12" => some (9.6136, ⟨8.68052e2, 8.78786e2, 0.47261, 0.99248⟩)
  | "C13" => some C13_row
  | "C14" => some (11.1949, ⟨6.34106e2, 8.55701e2, 0.60474, 0.98917⟩)
  | "C15" => some (12.2740, ⟨5.16292e2, 8.36581e2, 0.70681, 0.98622⟩)
  | "C16" => some (13.2807, ⟨4.31815e2, 8.16406e2, 0.81669, 0.98279⟩)
  | _ => none

/-- Constant selection of radiance_to_brightness_temp (src lines 365-383):
constants are read from the channel record (the mock dataset) when one is
passed, else looked up in the static table by channel code, defaulting to the
C13 row for unrecognized codes.  The except branch at src lines 372-376 is
unreachable for a well-formed record, since the mock dataset built at src
lines 1389-1399 always carries the four attributes when it is non-None. -/
noncomputable def calibration_constants (ds : Option PlanckConstants)
    (code : String) : PlanckConstants :=
  match ds with
  | some d => d
  | none => ((CHANNEL_CONSTANTS code).getD C13_row).2

/-- Elementwise radiance-to-brightness-temperature conversion of
radiance_to_brightness_temp (src lines 362-404; elementwise formula at lines
396-404): a pixel with strictly positive radiance maps to
(fk2 / log (fk1 / radiance + 1) - bc1) / bc2, any other pixel to the NaN
sentinel, modelled as none.  NUMBA_AVAILABLE is True (src line 14), so at
runtime the loop body is the Numba kernel numba_radiance_to_brightness_temp,
which lives in a notebook cell not under src; it is modelled from the spec as
computing this same elementwise inverse-Planck formula, which is exactly what
the in-source non-Numba branch at lines 396-404 computes. -/
noncomputable def radiance_to_brightness_temp (ds : Option PlanckConstants)
    (code : String) (radiance : Nat → Nat → ℝ) : Nat → Nat → Option ℝ :=
  let c := calibration_constants ds code
  fun i j =>
    if 0 < radiance i j then
      some ((c.fk2 / Real.log (c.fk1 / radiance i j + 1) - c.bc1) / c.bc2)
    else none

/-! ## Solar angle computation
(compute_solar_angles_enhanced, src lines 897-1166;
compute_solar_angles_simple, src lines 1462-1591) -/

/-- The lengths of the stored coordinate arrays, the only part of the
coordinate-data record the fallback paths read (src lines 1126, 1563). -/
structure CoordinateData where
  y_len : Nat
  x_len : Nat

/-- Value of numpy linspace from 0 to 1 with w samples at index j
(src line 1141): j / (w - 1), with a single sample landing at 0. -/
def linspace01 (w j : Nat) : ℚ :=
  if w ≤ 1 then 0 else (j : ℚ) / ((w : ℚ) - 1)

/-- Numpy clip of a rational to a closed interval. -/
def clipQ (lo hi v : ℚ) : ℚ := min (max v lo) hi

/-- Fallback solar-zenith pattern of compute_solar_angles_simple
(src lines 1565-1584): base angle max(90 - 15 |utc - 12|, 30), plus a
longitude proxy ((j / width) - 0.5) * 20, clipped to [20, 120].  The pattern
depends only on the column index, as in the source. -/
def simple_fallback_sza (utc_hour : ℚ) (w j : Nat) : ℚ :=
  clipQ 20 120 (max (90 - 15 * |utc_hour - 12|) 30 + ((j : ℚ) / (w : ℚ) - 1/2) * 20)

/-- Fallback solar-zenith pattern of compute_solar_angles_enhanced
(src lines 1136-1155): base angle max(90 - 15 |utc - 12|, 20), plus a
longitude proxy (linspace01 - 0.5) * 30, clipped to [10, 120]; it is applied
only at pixels inside the valid Earth-disk mask. -/
def enhanced_fallback_sza (utc_hour : ℚ) (w j : Nat) : ℚ :=
  clipQ 10 120 (max (90 - 15 * |utc_hour - 12|) 20 + (linspace01 w j - 1/2) * 30)

/-- Per-pixel zenith angle from an unclipped cosine (src lines 1530-1531 and
1075-1076): clip to [-1, 1], inverse cosine, convert to degrees. -/
noncomputable def sza_from_cos (c : ℝ) : ℝ :=
  Real.arccos (min (max c (-1)) 1) * (180 / Real.pi)

/-- Modelled from the spec: the upsampling step of both solar-angle functions
calls scipy.ndimage.zoom with order 1 (src lines 1107-1108, 1552-1553), an
external library routine; the spec describes it as upsampling the coarse
result back to full resolution, and order-1 zoom computes each output pixel
as a bilinear interpolation, a convex combination with weights t and u in
[0, 1] of four neighbouring coarse values. -/
noncomputable def bilinear_interp (t u v00 v01 v10 v11 : ℝ) : ℝ :=
  (1 - t) * ((1 - u) * v00 + u * v01) + t * ((1 - u) * v10 + u * v11)

/-- Control-flow embedding of compute_solar_angles_simple (src lines
1462-1591).  With no coordinate data the function returns None (lines
1464-1466).  Otherwise the try block runs; its external geodesy (pyproj
transformation, scipy upsampling) is represented by the try_result parameter,
none meaning an exception was raised.  On an exception the function builds
the deterministic time-based fallback pattern when the scan time had been
parsed (lines 1565-1584) and a uniform 60 degree grid otherwise (lines
1586-1589), and returns it instead of raising. -/
noncomputable def compute_solar_angles_simple (coordinate_data : Option CoordinateData)
    (try_result : Option (Nat → Nat → Option ℝ)) (utc_hour : Option ℚ) :
    Option (Nat → Nat → Option ℝ) :=
  match coordinate_data with
  | none => none
  | some cd =>
    match try_result with
    | some g => some g
    | none =>
      match utc_hour with
      | some h => some (fun _i j => some ((simple_fallback_sza h cd.x_len j : ℚ) : ℝ))
      | none => some (fun _i _j => some ((60 : ℝ)))

/-- Control-flow embedding of compute_solar_angles_enhanced (src lines
897-1166), analogous to the simple variant but masking the fallback pattern
to the valid Earth-disk pixels (lines 1152-1159); masked-out pixels hold the
NaN sentinel, modelled as none.  The inner fallback itself is total given a
well-formed coordinate record, so the exception handler at src lines
1164-1166 is not reachable in this model. -/
noncomputable def compute_solar_angles_enhanced (coordinate_data : Option CoordinateData)
    (valid : Nat → Nat → Bool) (try_result : Option (Nat → Nat → Option ℝ))
    (utc_hour : Option ℚ) : Option (Nat → Nat → Option ℝ) :=
  match coordinate_data with
  | none => none
  | some cd =>
    match try_result with
    | some g => some g
    | none =>
      match utc_hour with
      | some h =>
        some (fun i j =>
          if valid i j then some ((enhanced_fallback_sza h cd.x_len j : ℚ) : ℝ) else none)
      | none =>
        some (fun i j => if valid i j then some ((60 : ℝ)) else none)

/-! ## RGB product catalog and unified creation
(RGB_CATALOG, src lines 2047-2161; get_rgb_worker_registry, src lines
2164-2184; create_rgb_products_unified, src lines 3114-3225) -/

/-- A catalog entry: required channel codes, worker name, category tag
(the description strings are omitted as no code reads them). -/
structure RGBRecipe where
  channels : List String
  worker : String
  category : String
deriving DecidableEq

/-- Embedding of RGB_CATALOG (src lines 2047-2161). -/
def RGB_CATALOG : List (String × RGBRecipe) :=
  [("geocolor", ⟨["C01", "C02", "C03", "C07", "C13"], "rgb_worker_geocolor", "core"⟩),
   ("cloud_microphysics",
      ⟨["C02", "C05", "C07", "C13", "C15"], "rgb_worker_cloud_microphysics", "core"⟩),
   ("true_color", ⟨["C01", "C02", "C03"], "rgb_worker_true_color", "basic"⟩),
   ("day_cloud_phase", ⟨["C02", "C05", "C13"], "rgb_worker_day_cloud_phase", "basic"⟩),
   ("airmass", ⟨["C08", "C10", "C12", "C13"], "rgb_worker_airmass", "atmospheric"⟩),
   ("simple_water_vapor",
      ⟨["C08", "C09", "C10"], "rgb_worker_simple_water_vapor", "atmospheric"⟩),
   ("differential_water_vapor",
      ⟨["C08", "C10"], "rgb_worker_differential_water_vapor", "atmospheric"⟩),
   ("dust", ⟨["C11", "C13", "C14", "C15"], "rgb_worker_dust", "hazards"⟩),
   ("ash", ⟨["C11", "C13", "C15"], "rgb_worker_ash", "hazards"⟩),
   ("fire_temperature", ⟨["C07", "C06", "C05"], "rgb_worker_fire_temperature", "hazards"⟩),
   ("day_land_cloud_fire",
      ⟨["C06", "C03", "C02"], "rgb_worker_day_land_cloud_fire", "hazards"⟩),
   ("day_snow_fog", ⟨["C03", "C05", "C07", "C13"], "rgb_worker_day_snow_fog", "weather"⟩),
   ("night_microphysics",
      ⟨["C07", "C13", "C15"], "rgb_worker_night_microphysics", "weather"⟩),
   ("split_window", ⟨["C13", "C15"], "rgb_worker_split_window_optimized", "weather"⟩),
   ("split_window_difference",
      ⟨["C13", "C15"], "rgb_worker_split_window_difference", "weather"⟩),
   ("day_snow_fog_night_fog",
      ⟨["C03", "C05", "C07", "C13"], "rgb_worker_day_snow_fog_night_fog", "weather"⟩),
   ("sandwich", ⟨["C02", "C13"], "rgb_worker_sandwich_optimized", "composite"⟩)]

/-- The worker names registered by get_rgb_worker_registry (src lines
2164-2184); only registration matters to product membership, so the mapped
functions are not modelled here. -/
def rgb_worker_registry : List String :=
  ["rgb_worker_geocolor", "rgb_worker_true_color", "rgb_worker_day_cloud_phase",
   "rgb_worker_cloud_microphysics", "rgb_worker_airmass", "rgb_worker_dust",
   "rgb_worker_ash", "rgb_worker_fire_temperature", "rgb_worker_night_microphysics",
   "rgb_worker_day_snow_fog", "rgb_worker_split_window_difference",
   "rgb_worker_differential_water_vapor", "rgb_worker_simple_water_vapor",
   "rgb_worker_day_land_cloud_fire", "rgb_worker_split_window_optimized",
   "rgb_worker_sandwich_optimized", "rgb_worker_day_snow_fog_night_fog"]

/-- Catalog lookup by product name (first match, as in a Python dict). -/
def catalog_lookup (name : String) : Option RGBRecipe :=
  (RGB_CATALOG.lookup name)

/-- Outcome of one worker invocation inside create_rgb_products_unified
(src lines 3196-3216): the worker returns success with an rgb array, returns
a tagged failure, or raises an exception that the caller catches. -/
inductive WorkerOutcome
  | ok
  | failed
  | raised
deriving DecidableEq

/-- The availability check of create_rgb_products_unified (src lines
3130-3141): a requested product is possible when it is in the catalog and no
required channel is missing from the available set. -/
def is_possible (available : List String) (name : String) : Bool :=
  match catalog_lookup name with
  | some r => (r.channels.filter (fun c => !(available.contains c))).isEmpty
  | none => false

/-- The classification printed per requested product by
create_rgb_products_unified (src lines 3130-3141). -/
def product_report (available : List String) (name : String) : String :=
  match catalog_lookup name with
  | none => "unknown_product"
  | some r =>
    if r.channels.filter (fun c => !(available.contains c)) = [] then
      "all_channels_available"
    else "missing_channels"

/-- The possible-product list of create_rgb_products_unified (src lines
3124-3141): the requested products (all catalog products when the request is
empty/None, src line 3128) that pass the availability check. -/
def possible_products (requested available : List String) : List String :=
  (if requested = [] then RGB_CATALOG.map Prod.fst else requested).filter
    (is_possible available)

/-- Success condition for one product in the build loop (src lines
3184-3216): its worker is registered and its invocation returns success;
tagged failures and caught exceptions store nothing. -/
def worker_succeeds (outcome : String → WorkerOutcome) (name : String) : Bool :=
  match catalog_lookup name with
  | some r => rgb_worker_registry.contains r.worker && outcome r.worker == WorkerOutcome.ok
  | none => false

/-- Embedding of create_rgb_products_unified (src lines 3114-3225), returning
the set of stored product names in build order.  The worker functions read
fixed channel data and solar angles for the whole run, so their behaviour is
represented by the outcome map from worker name to invocation outcome. -/
def create_rgb_products_unified (requested available : List String)
    (outcome : String → WorkerOutcome) : List String :=
  (possible_products requested available).filter (worker_succeeds outcome)

/-! ## Channel result aggregation
(process_standard_conus, src lines 1648-1716; process_level2_aware, src lines
1243-1305; process_enhanced_full_disk, src lines 1808-1870; ChannelDataStore,
src lines 498-535) -/

/-- One worker result as consumed by the aggregation loops: the success tag
and channel code (src lines 876-885), the stored payload, which stands for
the calibrated array, enhanced array, channel type, metadata and processing
time, and the optional coordinate record. -/
structure WorkerResult (α β : Type) where
  success : Bool
  channel_code : String
  payload : α
  coordinate_data : Option β
deriving DecidableEq

/-- The mutable store filled by the aggregation loops: ChannelDataStore
channels/metadata keyed by channel code, plus the coordinate record
(src lines 498-528). -/
@[ext]
structure ChannelStore (α β : Type) where
  channels : String → Option α
  coordinate_data : Option β

/-- One iteration of the result-aggregation loop (src lines 1663-1689 and
1692-1715, identical in the pool and sequential branches): a successful
result stores its payload under its channel code via store_channel and, when
it carries coordinate data, overwrites the coordinate record via
store_coordinate_data; a failed result only bumps the failure count. -/
def store_step {α β : Type} (s : ChannelStore α β) (r : WorkerResult α β) :
    ChannelStore α β :=
  if r.success = true then
    { channels := fun c => if c = r.channel_code then some r.payload else s.channels c
      coordinate_data :=
        match r.coordinate_data with
        | some cd => some cd
        | none => s.coordinate_data }
  else s

/-- Aggregation of a list of worker results into a fresh store, in list
order.  The sequential branch consumes results in task order; the
ThreadPoolExecutor branch consumes them in completion order, an arbitrary
permutation of the same multiset of results, since the workers are pure
functions of their tasks. -/
def aggregate {α β : Type} (results : List (WorkerResult α β)) : ChannelStore α β :=
  results.foldl store_step { channels := fun _ => none, coordinate_data := none }

/-! ## Day/night-aware RGB workers and their default solar angles
(rgb_worker_geocolor, src lines 2322-2382; rgb_worker_cloud_microphysics,
src lines 2620-2654; rgb_worker_sandwich_optimized, src lines 2735-2767) -/

/-- Channels required by rgb_worker_geocolor (src line 2328). -/
def geocolor_required : List String := ["C01", "C02", "C03", "C07", "C13"]

/-- Channels required by rgb_worker_cloud_microphysics (src line 2627). -/
def cloud_microphysics_required : List String := ["C02", "C05", "C07", "C13", "C15"]

/-- Channels required by rgb_worker_sandwich_optimized (src line 2740). -/
def sandwich_required : List String := ["C02", "C13"]

/-- Embedding of rgb_worker_geocolor (src lines 2322-2382), exposing the
solar-zenith grid the worker consumes.  Missing required channels yield a
failure (none); otherwise the worker uses the provided solar grid, or a
constant 45 degree grid when none is available (src lines 2345-2352), and
produces its product; the Numba compositing core, defined in a notebook cell
not under src, is modelled from the spec as total, so the call succeeds. -/
def rgb_worker_geocolor (channels : List String)
    (solar : Option (Nat → Nat → ℚ)) : Option (Nat → Nat → ℚ) :=
  if geocolor_required.all (channels.contains ·) then
    some (match solar with
          | some g => g
          | none => fun _ _ => 45)
  else none

/-- Embedding of rgb_worker_cloud_microphysics (src lines 2620-2654): with no
solar grid it substitutes a constant 60 degree grid (src lines 2639-2642). -/
def rgb_worker_cloud_microphysics (channels : List String)
    (solar : Option (Nat → Nat → ℚ)) : Option (Nat → Nat → ℚ) :=
  if cloud_microphysics_required.all (channels.contains ·) then
    some (match solar with
          | some g => g
          | none => fun _ _ => 60)
  else none

/-- Embedding of rgb_worker_sandwich_optimized (src lines 2735-2767): with no
solar grid it substitutes a constant 80 degree grid, the value the source
comments call the default twilight blend (src lines 2749-2755). -/
def rgb_worker_sandwich_optimized (channels : List String)
    (solar : Option (Nat → Nat → ℚ)) : Option (Nat → Nat → ℚ) :=
  if sandwich_required.all (channels.contains ·) then
    some (match solar with
          | some g => g
          | none => fun _ _ => 80)
  else none

/-! ## Reference shape selection
(process_standard_conus, src lines 1622-1634; process_level2_aware, src lines
1210-1222; process_enhanced_full_disk, src lines 1775-1788; the three blocks
are identical) -/

/-- One iteration of the largest-shape scan: a shape with strictly more
pixels than the running maximum (which starts at 0) replaces the running
best. -/
def reference_step (acc : Nat × Option (Nat × Nat)) (kv : String × Nat × Nat) :
    Nat × Option (Nat × Nat) :=
  if kv.2.1 * kv.2.2 > acc.1 then (kv.2.1 * kv.2.2, some kv.2) else acc

/-- Embedding of the reference-shape selection shared by the three processing
paths: the native shape of channel C02 when C02 was loaded, otherwise the
result of scanning all loaded channels for the largest pixel count, starting
from max_pixels = 0 and reference_shape = None.  The store is the list of
loaded channels in insertion order with their native shapes; keys are unique
as in a Python dict. -/
def reference_shape (store : List (String × Nat × Nat)) : Option (Nat × Nat) :=
  match store.lookup "C02" with
  | some s => some s
  | none => (store.foldl reference_step (0, none)).2

/-! ## Claim theorems -/

/-- C8.  Processing-path selection is a pure function of the available
metadata: a level2 data level or a download summary selects level2_aware; else
a full_disk domain selects enhanced_full_disk; else standard_conus is
selected. -/
theorem c8_path_selection (data_level : String) (has_summary : Bool)
    (domain_type : String) :
    ((data_level = "level2" ∨ has_summary = true) →
      determine_processing_path data_level has_summary domain_type = "level2_aware") ∧
    (¬(data_level = "level2" ∨ has_summary = true) → domain_type = "full_disk" →
      determine_processing_path data_level has_summary domain_type = "enhanced_full_disk") ∧
    (¬(data_level = "level2" ∨ has_summary = true) → domain_type ≠ "full_disk" →
      determine_processing_path data_level has_summary domain_type = "standard_conus") := by
  refine ⟨fun h => ?_, fun h hd => ?_, fun h hd => ?_⟩
  · simp [determine_processing_path, h]
  · simp [determine_processing_path, h, hd]
  · simp [determine_processing_path, h, hd]

/-- Witness for c8_path_selection at concrete metadata values: each of the
three selection cases evaluated. -/
theorem c8_path_selection_witness :
    determine_processing_path "level2" false "conus" = "level2_aware" ∧
    determine_processing_path "level1b" false "full_disk" = "enhanced_full_disk" ∧
    determine_processing_path "level1b" false "conus" = "standard_conus" :=
  ⟨(c8_path_selection "level2" false "conus").1 (Or.inl rfl),
   (c8_path_selection "level1b" false "full_disk").2.1 (by simp) rfl,
   (c8_path_selection "level1b" false "conus").2.2 (by simp) (by simp)⟩

/-- C9.  A pixel at projection coordinates (x, y) is valid exactly when
x squared plus y squared is at most the square of arcsin of Earth radius over
satellite height; the disjunction makes explicit that boundary pixels, where
equality holds, count as valid. -/
theorem c9_valid_mask (sat_height x y : ℝ) :
    create_valid_coordinate_mask sat_height x y ↔
      (x ^ 2 + y ^ 2 < (Real.arcsin (earth_radius / sat_height)) ^ 2 ∨
       x ^ 2 + y ^ 2 = (Real.arcsin (earth_radius / sat_height)) ^ 2) := by
  unfold create_valid_coordinate_mask max_viewing_angle
  exact le_iff_lt_or_eq

/-- Witness for c9_valid_mask: the sub-satellite pixel (0, 0) is valid at the
default satellite height. -/
theorem c9_valid_mask_witness :
    create_valid_coordinate_mask 35786023.0 0 0 := by
  refine (c9_valid_mask 35786023.0 0 0).mpr (Or.inl ?_)
  have hpos : 0 < Real.arcsin (earth_radius / 35786023.0) := by
    apply Real.arcsin_pos.mpr
    unfold earth_radius
    positivity
  nlinarith [sq_nonneg (Real.arcsin (earth_radius / 35786023.0))]

/-- C1 counterexample.  For a standard CONUS channel task whose native shape
differs from its target shape, the worker trace resamples the raw radiance
before calibrating, which is not the calibrate-resample-enhance order the
claim asserts. -/
theorem c1_counterexample :
    standard_conus_worker_trace true ≠ calibrate_first_trace true ∧
    standard_conus_worker_trace true =
      [PipelineOp.resample, PipelineOp.calibrate, PipelineOp.enhance] ∧
    calibrate_first_trace true =
      [PipelineOp.calibrate, PipelineOp.resample, PipelineOp.enhance] := by
  refine ⟨?_, rfl, rfl⟩
  decide

/-- C1 amended.  The level2_aware worker on level-1b input does run
calibration, then the optional resample, then enhancement; the level2_aware
worker on level-2 input skips calibration; but the standard_conus worker
(also reused by the enhanced_full_disk path) runs the optional resample on
the raw radiance first, then calibration, then enhancement, and only agrees
with the calibrate-first order when no resampling is needed. -/
theorem c1_amended (shape_mismatch : Bool) :
    level2_aware_worker_trace false shape_mismatch = calibrate_first_trace shape_mismatch ∧
    level2_aware_worker_trace true shape_mismatch =
      (if shape_mismatch then [PipelineOp.resample] else []) ++ [PipelineOp.enhance] ∧
    standard_conus_worker_trace shape_mismatch = resample_first_trace shape_mismatch ∧
    standard_conus_worker_trace false = calibrate_first_trace false := by
  cases shape_mismatch <;> exact ⟨rfl, rfl, rfl, rfl⟩

/-- Witness for c1_amended at both values of the shape-mismatch flag. -/
theorem c1_amended_witness :
    standard_conus_worker_trace false = calibrate_first_trace false ∧
    level2_aware_worker_trace false true = calibrate_first_trace true :=
  ⟨(c1_amended false).2.2.2, (c1_amended true).1⟩

/-- C2 counterexample.  On a 3 by 3 array with zoom factor 15/8 the code
truncates 3 times 15/8 = 5.625 to 5 rows, whereas rounding as the claim
states would give 6. -/
theorem c2_counterexample :
    (fast_upscale_array sample_array (15/8, 15/8)).rows = 5 ∧
    round (((sample_array.rows : ℚ)) * (15/8)) = 6 ∧
    ((fast_upscale_array sample_array (15/8, 15/8)).rows : ℤ) ≠
      round (((sample_array.rows : ℚ)) * (15/8)) := by
  have hne : ¬(((15/8 : ℚ), (15/8 : ℚ)).1 = 1 ∧ ((15/8 : ℚ), (15/8 : ℚ)).2 = 1) := by
    norm_num
  have h1 : (fast_upscale_array sample_array (15/8, 15/8)).rows = 5 := by
    simp only [fast_upscale_array, if_neg hne, sample_array, pyInt]
    norm_num [Int.floor_eq_iff]
    decide
  have h2 : round (((sample_array.rows : ℚ)) * (15/8)) = 6 := by
    simp only [sample_array]
    norm_num [round_eq, Int.floor_eq_iff]
  exact ⟨h1, h2, by rw [h1, h2]; decide⟩

/-- C2 amended.  For every 2-D input array and every zoom factor, the output
shape of fast_upscale_array equals the Python int() truncation of native
dimension times zoom factor in each dimension (this agrees with rounding for
the declared integral 2x and 4x factors), and a zoom factor of exactly
(1.0, 1.0) returns the input array itself unchanged. -/
theorem c2_amended (a : Array2) (zoom : ℚ × ℚ) :
    (fast_upscale_array a zoom).rows = (pyInt ((a.rows : ℚ) * zoom.1)).toNat ∧
    (fast_upscale_array a zoom).cols = (pyInt ((a.cols : ℚ) * zoom.2)).toNat ∧
    fast_upscale_array a (1, 1) = a := by
  have hone : fast_upscale_array a (1, 1) = a := by
    simp [fast_upscale_array]
  by_cases h : zoom.1 = 1 ∧ zoom.2 = 1
  · refine ⟨?_, ?_, hone⟩ <;>
      simp [fast_upscale_array, if_pos h, h.1, h.2, pyInt, Int.floor_natCast]
  · refine ⟨?_, ?_, hone⟩ <;> simp [fast_upscale_array, if_neg h]

/-- Witness for c2_amended on the concrete 3 by 3 array: a 2x zoom yields
the truncated shape and a unit zoom returns the array itself. -/
theorem c2_amended_witness :
    (fast_upscale_array sample_array (2, 2)).rows =
      (pyInt ((sample_array.rows : ℚ) * (2, (2 : ℚ)).1)).toNat ∧
    fast_upscale_array sample_array (1, 1) = sample_array :=
  ⟨(c2_amended sample_array (2, 2)).1, (c2_amended sample_array (2, 2)).2.2⟩

/-- C3.  Elementwise IR calibration: every pixel with strictly positive
radiance maps to (fk2 / log (fk1 / radiance + 1) - bc1) / bc2 and every other
pixel to the NaN sentinel, where the constants come from the channel record
when one is present, else from the static per-channel table, defaulting to
the C13 row when the channel code is unrecognized. -/
theorem c3_ir_calibration (ds : Option PlanckConstants) (code : String)
    (radiance : Nat → Nat → ℝ) (i j : Nat) :
    (radiance i j ≤ 0 → radiance_to_brightness_temp ds code radiance i j = none) ∧
    (∀ d, ds = some d → 0 < radiance i j →
      radiance_to_brightness_temp ds code radiance i j =
        some ((d.fk2 / Real.log (d.fk1 / radiance i j + 1) - d.bc1) / d.bc2)) ∧
    (∀ w p, ds = none → CHANNEL_CONSTANTS code = some (w, p) → 0 < radiance i j →
      radiance_to_brightness_temp ds code radiance i j =
        some ((p.fk2 / Real.log (p.fk1 / radiance i j + 1) - p.bc1) / p.bc2)) ∧
    (ds = none → CHANNEL_CONSTANTS code = none → 0 < radiance i j →
      radiance_to_brightness_temp ds code radiance i j =
        some ((C13_row.2.fk2 / Real.log (C13_row.2.fk1 / radiance i j + 1) -
          C13_row.2.bc1) / C13_row.2.bc2)) := by
  refine ⟨fun hle => ?_, fun d hds hpos => ?_, fun w p hds htab hpos => ?_,
    fun hds htab hpos => ?_⟩
  · simp [radiance_to_brightness_temp, not_lt.mpr hle]
  · subst hds
    simp [radiance_to_brightness_temp, calibration_constants, if_pos hpos]
  · subst hds
    simp [radiance_to_brightness_temp, calibration_constants, htab, if_pos hpos]
  · subst hds
    simp [radiance_to_brightness_temp, calibration_constants, htab, if_pos hpos]

/-- Witness for c3_ir_calibration: record-supplied constants on channel C07 at
radiance 1, the C13 default on the unrecognized code C99, and the NaN
sentinel at radiance 0. -/
theorem c3_ir_calibration_witness :
    radiance_to_brightness_temp (some ⟨1, 2, 3, 4⟩) "C07" (fun _ _ => 1) 0 0 =
      some ((2 / Real.log (1 / 1 + 1) - 3) / 4) ∧
    radiance_to_brightness_temp none "C99" (fun _ _ => 1) 0 0 =
      some ((C13_row.2.fk2 / Real.log (C13_row.2.fk1 / 1 + 1) - C13_row.2.bc1) /
        C13_row.2.bc2) ∧
    radiance_to_brightness_temp none "C13" (fun _ _ => 0) 0 0 = none :=
  ⟨(c3_ir_calibration (some ⟨1, 2, 3, 4⟩) "C07" (fun _ _ => 1) 0 0).2.1
      ⟨1, 2, 3, 4⟩ rfl (by norm_num),
   (c3_ir_calibration none "C99" (fun _ _ => 1) 0 0).2.2.2 rfl rfl (by norm_num),
   (c3_ir_calibration none "C13" (fun _ _ => 0) 0 0).1 le_rfl⟩

/-- Helper: a convex combination of two values in [0, 180] stays in
[0, 180]. -/
theorem convex_combo_bounds (u a b : ℝ) (hu0 : 0 ≤ u) (hu1 : u ≤ 1)
    (ha0 : 0 ≤ a) (ha1 : a ≤ 180) (hb0 : 0 ≤ b) (hb1 : b ≤ 180) :
    0 ≤ (1 - u) * a + u * b ∧ (1 - u) * a + u * b ≤ 180 := by
  constructor <;> nlinarith

/-- C4.  Whenever coordinate data is available, both solar-angle functions
return a non-null grid for every outcome of the external geodesy, including
failure; the deterministic fallback patterns, the in-source per-pixel
zenith-angle formula and the bilinear upsampling all produce zenith values
within [0, 180] degrees. -/
theorem c4_solar_fallback (cd : CoordinateData) (valid : Nat → Nat → Bool)
    (try_result : Option (Nat → Nat → Option ℝ)) (utc_hour : Option ℚ)
    (h : ℚ) (w j : Nat) (c t u v00 v01 v10 v11 : ℝ) :
    (compute_solar_angles_simple (some cd) try_result utc_hour).isSome = true ∧
    (compute_solar_angles_enhanced (some cd) valid try_result utc_hour).isSome = true ∧
    (0 ≤ simple_fallback_sza h w j ∧ simple_fallback_sza h w j ≤ 180) ∧
    (0 ≤ enhanced_fallback_sza h w j ∧ enhanced_fallback_sza h w j ≤ 180) ∧
    (0 ≤ sza_from_cos c ∧ sza_from_cos c ≤ 180) ∧
    (0 ≤ t → t ≤ 1 → 0 ≤ u → u ≤ 1 →
      0 ≤ v00 → v00 ≤ 180 → 0 ≤ v01 → v01 ≤ 180 →
      0 ≤ v10 → v10 ≤ 180 → 0 ≤ v11 → v11 ≤ 180 →
      0 ≤ bilinear_interp t u v00 v01 v10 v11 ∧
        bilinear_interp t u v00 v01 v10 v11 ≤ 180) := by
  refine ⟨?_, ?_, ⟨?_, ?_⟩, ⟨?_, ?_⟩, ⟨?_, ?_⟩, ?_⟩
  · cases try_result <;> cases utc_hour <;> simp [compute_solar_angles_simple]
  · cases try_result <;> cases utc_hour <;> simp [compute_solar_angles_enhanced]
  · exact le_min (le_trans (by norm_num) (le_max_right _ (20 : ℚ))) (by norm_num)
  · exact le_trans (min_le_right _ _) (by norm_num)
  · exact le_min (le_trans (by norm_num) (le_max_right _ (10 : ℚ))) (by norm_num)
  · exact le_trans (min_le_right _ _) (by norm_num)
  · exact mul_nonneg (Real.arccos_nonneg _)
      (div_nonneg (by norm_num) Real.pi_pos.le)
  · have harc : Real.arccos (min (max c (-1)) 1) ≤ Real.pi := Real.arccos_le_pi _
    have hstep : sza_from_cos c ≤ Real.pi * (180 / Real.pi) :=
      mul_le_mul_of_nonneg_right harc (div_nonneg (by norm_num) Real.pi_pos.le)
    have hpi : Real.pi * (180 / Real.pi) = 180 := by
      field_simp
    exact hstep.trans_eq hpi
  · intro ht0 ht1 hu0 hu1 h000 h001 h010 h011 h100 h101 h110 h111
    have hin0 := convex_combo_bounds u v00 v01 hu0 hu1 h000 h001 h010 h011
    have hin1 := convex_combo_bounds u v10 v11 hu0 hu1 h100 h101 h110 h111
    have hout := convex_combo_bounds t ((1 - u) * v00 + u * v01)
      ((1 - u) * v10 + u * v11) ht0 ht1 hin0.1 hin0.2 hin1.1 hin1.2
    exact hout

/-- Witness for c4_solar_fallback at a failed geodesy outcome on a 2 by 3
coordinate grid at 18:00 UTC, with concrete bilinear weights one half and
corner values 90. -/
theorem c4_solar_fallback_witness :
    (compute_solar_angles_simple (some ⟨2, 3⟩) none (some 18)).isSome = true ∧
    (0 ≤ simple_fallback_sza 18 3 1 ∧ simple_fallback_sza 18 3 1 ≤ 180) ∧
    (0 ≤ sza_from_cos 0 ∧ sza_from_cos 0 ≤ 180) ∧
    (0 ≤ bilinear_interp (1/2) (1/2) 90 90 90 90 ∧
      bilinear_interp (1/2) (1/2) 90 90 90 90 ≤ 180) := by
  have happ := c4_solar_fallback ⟨2, 3⟩ (fun _ _ => true) none (some 18)
    18 3 1 0 (1/2) (1/2) 90 90 90 90
  exact ⟨happ.1, happ.2.2.1, happ.2.2.2.2.1,
    happ.2.2.2.2.2 (by norm_num) (by norm_num) (by norm_num) (by norm_num)
      (by norm_num) (by norm_num) (by norm_num) (by norm_num)
      (by norm_num) (by norm_num) (by norm_num) (by norm_num)⟩

/-- Helper: membership in the unified RGB product set, characterized by the
requested list, the availability check and the own-worker outcome. -/
theorem mem_create_rgb_iff (requested available : List String)
    (outcome : String → WorkerOutcome) (p : String) :
    p ∈ create_rgb_products_unified requested available outcome ↔
      (p ∈ (if requested = [] then RGB_CATALOG.map Prod.fst else requested) ∧
        is_possible available p = true ∧ worker_succeeds outcome p = true) := by
  simp only [create_rgb_products_unified, possible_products, List.mem_filter]
  tauto

/-- C5.  A requested catalog product with a missing required channel is
classified as a missing-channels failure and is absent from the resulting
product set; and membership of any product in the result depends only on its
own worker invocation, so an exception raised while building one product
cannot prevent the remaining products from being built. -/
theorem c5_product_isolation (requested available : List String)
    (outcome : String → WorkerOutcome) (p : String) :
    (∀ r, catalog_lookup p = some r →
      ¬(∀ ch ∈ r.channels, available.contains ch = true) →
        product_report available p = "missing_channels" ∧
        p ∉ create_rgb_products_unified requested available outcome) ∧
    (∀ outcome2 : String → WorkerOutcome,
      (∀ r, catalog_lookup p = some r → outcome r.worker = outcome2 r.worker) →
        (p ∈ create_rgb_products_unified requested available outcome ↔
         p ∈ create_rgb_products_unified requested available outcome2)) := by
  constructor
  · intro r hr hmiss
    have hne : r.channels.filter (fun ch => !(available.contains ch)) ≠ [] := by
      intro hemp
      apply hmiss
      intro ch hch
      have := List.filter_eq_nil_iff.mp hemp ch hch
      simpa using this
    refine ⟨?_, ?_⟩
    · simp only [product_report, hr]
      rw [if_neg hne]
    · intro hmem
      have hposs := ((mem_create_rgb_iff requested available outcome p).mp hmem).2.1
      simp only [is_possible, hr] at hposs
      exact hne (List.isEmpty_iff.mp hposs)
  · intro outcome2 hsame
    have hsucc : worker_succeeds outcome p = worker_succeeds outcome2 p := by
      cases hcat : catalog_lookup p with
      | none => simp [worker_succeeds, hcat]
      | some r => simp [worker_succeeds, hcat, hsame r hcat]
    rw [mem_create_rgb_iff, mem_create_rgb_iff, hsucc]

/-- Witness for c5_product_isolation: with only channels C02 and C13 loaded,
the requested true_color product (needing C01, C02, C03) is reported as
missing channels and is absent from the result even though every worker
invocation succeeds; and its membership is unchanged when the outcome map is
replaced by one that agrees on its own worker. -/
theorem c5_product_isolation_witness :
    (product_report ["C02", "C13"] "true_color" = "missing_channels" ∧
      "true_color" ∉ create_rgb_products_unified ["true_color", "sandwich"]
        ["C02", "C13"] (fun _ => WorkerOutcome.ok)) ∧
    ("sandwich" ∈ create_rgb_products_unified ["true_color", "sandwich"]
        ["C02", "C13"] (fun _ => WorkerOutcome.ok) ↔
     "sandwich" ∈ create_rgb_products_unified ["true_color", "sandwich"]
        ["C02", "C13"] (fun _ => WorkerOutcome.ok)) :=
  ⟨(c5_product_isolation ["true_color", "sandwich"] ["C02", "C13"]
      (fun _ => WorkerOutcome.ok) "true_color").1
      ⟨["C01", "C02", "C03"], "rgb_worker_true_color", "basic"⟩ rfl (by decide),
   (c5_product_isolation ["true_color", "sandwich"] ["C02", "C13"]
      (fun _ => WorkerOutcome.ok) "sandwich").2
      (fun _ => WorkerOutcome.ok) (fun _ _ => rfl)⟩

/-- C7 counterexample.  With no solar-angle grid available and all required
channels present, the geocolor worker substitutes a constant 45 degree grid,
the cloud-microphysics worker 60 degrees and the sandwich worker 80 degrees:
there is no single fixed twilight-equivalent default angle, and the geocolor
default 45 is a daytime value, below the 80 the source itself labels as the
twilight default and well below the 90 degree day/night boundary. -/
theorem c7_counterexample :
    (rgb_worker_geocolor ["C01", "C02", "C03", "C07", "C13"] none).map
        (fun g => g 0 0) = some 45 ∧
    (rgb_worker_cloud_microphysics ["C02", "C05", "C07", "C13", "C15"] none).map
        (fun g => g 0 0) = some 60 ∧
    (rgb_worker_sandwich_optimized ["C02", "C13"] none).map
        (fun g => g 0 0) = some 80 ∧
    (45 : ℚ) ≠ 80 ∧ (45 : ℚ) < 90 := by
  exact ⟨rfl, rfl, rfl, by norm_num, by norm_num⟩

/-- C7 amended.  When no solar-angle grid is available, each day/night-aware
compositing worker substitutes its own fixed default solar zenith angle for
every pixel, 45 degrees for geocolor, 60 for cloud microphysics and 80 for
sandwich, and still produces its product rather than failing. -/
theorem c7_default_solar (channels : List String) (i j : Nat) :
    (geocolor_required.all (channels.contains ·) = true →
      ∃ g, rgb_worker_geocolor channels none = some g ∧ g i j = 45) ∧
    (cloud_microphysics_required.all (channels.contains ·) = true →
      ∃ g, rgb_worker_cloud_microphysics channels none = some g ∧ g i j = 60) ∧
    (sandwich_required.all (channels.contains ·) = true →
      ∃ g, rgb_worker_sandwich_optimized channels none = some g ∧ g i j = 80) := by
  refine ⟨fun hc => ⟨fun _ _ => 45, ?_, rfl⟩, fun hc => ⟨fun _ _ => 60, ?_, rfl⟩,
    fun hc => ⟨fun _ _ => 80, ?_, rfl⟩⟩
  · simp only [rgb_worker_geocolor, if_pos hc]
  · simp only [rgb_worker_cloud_microphysics, if_pos hc]
  · simp only [rgb_worker_sandwich_optimized, if_pos hc]

/-- Witness for c7_default_solar with all sixteen channels present, at pixel
(0, 0). -/
theorem c7_default_solar_witness :
    (∃ g, rgb_worker_geocolor
        ["C01", "C02", "C03", "C05", "C07", "C13", "C15"] none = some g ∧
      g 0 0 = 45) ∧
    (∃ g, rgb_worker_cloud_microphysics
        ["C01", "C02", "C03", "C05", "C07", "C13", "C15"] none = some g ∧
      g 0 0 = 60) ∧
    (∃ g, rgb_worker_sandwich_optimized
        ["C01", "C02", "C03", "C05", "C07", "C13", "C15"] none = some g ∧
      g 0 0 = 80) :=
  have happ := c7_default_solar ["C01", "C02", "C03", "C05", "C07", "C13", "C15"] 0 0
  ⟨happ.1 rfl, happ.2.1 rfl, happ.2.2 rfl⟩

/-- Helper: a list containing two distinct elements has length at least
two. -/
theorem two_le_length_of_pair {γ : Type} {l : List γ} {x y : γ}
    (hx : x ∈ l) (hy : y ∈ l) (hxy : x ≠ y) : 2 ≤ l.length := by
  match l with
  | [] => cases hx
  | [a] =>
    rw [List.mem_singleton] at hx hy
    exact absurd (hx.trans hy.symm) hxy
  | a :: b :: t => simp only [List.length_cons]; omega

/-- Helper: two aggregation steps for results with distinct channel codes
that do not both carry coordinate data commute. -/
theorem store_step_comm {α β : Type} (z : ChannelStore α β)
    (x y : WorkerResult α β)
    (hcode : x.channel_code ≠ y.channel_code)
    (hnotboth : ¬(x.success = true ∧ x.coordinate_data.isSome = true ∧
      y.success = true ∧ y.coordinate_data.isSome = true)) :
    store_step (store_step z x) y = store_step (store_step z y) x := by
  by_cases hxs : x.success = true
  · by_cases hys : y.success = true
    · simp only [store_step, hxs, hys, if_true]
      ext c
      · by_cases hcx : c = x.channel_code <;> by_cases hcy : c = y.channel_code <;>
          simp_all
      · cases hx1 : x.coordinate_data with
        | some cdx =>
          cases hy1 : y.coordinate_data with
          | some cdy => exact absurd ⟨hxs, by simp [hx1], hys, by simp [hy1]⟩ hnotboth
          | none => simp
        | none =>
          cases hy1 : y.coordinate_data <;> simp
    · simp only [store_step, if_neg hys]
  · simp only [store_step, if_neg hxs]

/-- C6.  The aggregated ChannelStore contents do not depend on the order in
which worker results arrive: for any two permutations of the same result
list, with one result per channel code and at most one successful result
carrying coordinate data, the aggregated stores are equal.  The sequential
branch consumes results in task order and the thread-pool branch in
completion order, so the two runs aggregate permutations of the same pure
results and produce identical stores. -/
theorem c6_aggregation_order {α β : Type} (l1 l2 : List (WorkerResult α β))
    (hperm : l1.Perm l2)
    (hcodes : (l1.map WorkerResult.channel_code).Nodup)
    (hcoord : (l1.filter
      (fun r => r.success && r.coordinate_data.isSome)).length ≤ 1) :
    aggregate l1 = aggregate l2 := by
  unfold aggregate
  refine hperm.foldl_eq' ?_ _
  intro x hx y hy z
  by_cases hxy : x = y
  · subst hxy; rfl
  · have hcode : x.channel_code ≠ y.channel_code := fun hcc =>
      hxy (List.inj_on_of_nodup_map hcodes hx hy hcc)
    have hnotboth : ¬(x.success = true ∧ x.coordinate_data.isSome = true ∧
        y.success = true ∧ y.coordinate_data.isSome = true) := by
      rintro ⟨hxs, hxc, hys, hyc⟩
      have hxf : x ∈ l1.filter (fun r => r.success && r.coordinate_data.isSome) :=
        List.mem_filter.mpr ⟨hx, by simp [hxs, hxc]⟩
      have hyf : y ∈ l1.filter (fun r => r.success && r.coordinate_data.isSome) :=
        List.mem_filter.mpr ⟨hy, by simp [hys, hyc]⟩
      have := two_le_length_of_pair hxf hyf hxy
      omega
    exact store_step_comm z x y hcode hnotboth

/-- Witness for c6_aggregation_order: two successful results with distinct
channel codes, of which only one carries coordinate data, aggregated in both
orders. -/
theorem c6_aggregation_order_witness :
    ([⟨true, "C01", 1, none⟩, ⟨true, "C02", 2, some 5⟩] :
        List (WorkerResult ℕ ℕ)).Perm
      [⟨true, "C02", 2, some 5⟩, ⟨true, "C01", 1, none⟩] ∧
    (([⟨true, "C01", 1, none⟩, ⟨true, "C02", 2, some 5⟩] :
        List (WorkerResult ℕ ℕ)).map WorkerResult.channel_code).Nodup ∧
    (([⟨true, "C01", 1, none⟩, ⟨true, "C02", 2, some 5⟩] :
        List (WorkerResult ℕ ℕ)).filter
      (fun r => r.success && r.coordinate_data.isSome)).length ≤ 1 ∧
    aggregate ([⟨true, "C01", 1, none⟩, ⟨true, "C02", 2, some 5⟩] :
        List (WorkerResult ℕ ℕ)) =
      aggregate [⟨true, "C02", 2, some 5⟩, ⟨true, "C01", 1, none⟩] :=
  ⟨List.Perm.swap _ _ _, by decide, by decide,
   c6_aggregation_order _ _ (List.Perm.swap _ _ _) (by decide) (by decide)⟩

/-- Helper: the largest-shape scan leaves its accumulator unchanged when no
scanned pixel count exceeds the running maximum. -/
theorem reference_fold_frozen (store : List (String × Nat × Nat))
    (acc : Nat × Option (Nat × Nat))
    (hsmall : ∀ kv ∈ store, kv.2.1 * kv.2.2 ≤ acc.1) :
    store.foldl reference_step acc = acc := by
  induction store generalizing acc with
  | nil => rfl
  | cons kv t ih =>
    have hkv : kv.2.1 * kv.2.2 ≤ acc.1 := hsmall kv (List.mem_cons_self _ _)
    have hstep : reference_step acc kv = acc := by
      simp [reference_step, not_lt.mpr hkv]
    rw [List.foldl_cons, hstep]
    exact ih acc (fun kv2 h2 => hsmall kv2 (List.mem_cons_of_mem _ h2))

/-- Helper: specification of the largest-shape scan.  Starting from an
accumulator whose running maximum matches its candidate shape, the scan only
grows the maximum, ends with a maximum dominating every scanned pixel count,
keeps the accumulator whenever it ends without a candidate, and any final
candidate attains the final maximum and comes from the accumulator or the
scanned list. -/
theorem reference_fold_spec (store : List (String × Nat × Nat))
    (acc : Nat × Option (Nat × Nat))
    (hinv : ∀ s, acc.2 = some s → acc.1 = s.1 * s.2) :
    acc.1 ≤ (store.foldl reference_step acc).1 ∧
    (∀ kv ∈ store, kv.2.1 * kv.2.2 ≤ (store.foldl reference_step acc).1) ∧
    ((store.foldl reference_step acc).2 = none →
      store.foldl reference_step acc = acc) ∧
    (∀ s, (store.foldl reference_step acc).2 = some s →
      (store.foldl reference_step acc).1 = s.1 * s.2 ∧
        (acc.2 = some s ∨ ∃ c, (c, s) ∈ store)) := by
  induction store generalizing acc with
  | nil =>
    refine ⟨le_rfl, ?_, fun _ => rfl, fun s hs => ⟨hinv s hs, Or.inl hs⟩⟩
    intro kv hkv
    cases hkv
  | cons kv t ih =>
    by_cases hsel : kv.2.1 * kv.2.2 > acc.1
    · have hstep : reference_step acc kv = (kv.2.1 * kv.2.2, some kv.2) := by
        simp [reference_step, hsel]
      have hinv2 : ∀ s, ((kv.2.1 * kv.2.2, some kv.2) :
          Nat × Option (Nat × Nat)).2 = some s →
          ((kv.2.1 * kv.2.2, some kv.2) : Nat × Option (Nat × Nat)).1 =
            s.1 * s.2 := by
        intro s hs
        cases hs
        rfl
      obtain ⟨ih1, ih2, ih3, ih4⟩ := ih (kv.2.1 * kv.2.2, some kv.2) hinv2
      rw [List.foldl_cons, hstep]
      refine ⟨le_trans (le_of_lt hsel) ih1, ?_, ?_, ?_⟩
      · intro kv2 hmem
        rcases List.mem_cons.mp hmem with h | h
        · subst h; exact ih1
        · exact ih2 kv2 h
      · intro hnone
        have heq := ih3 hnone
        rw [heq] at hnone
        exact absurd hnone (by simp)
      · intro s hs
        obtain ⟨h1, h2⟩ := ih4 s hs
        refine ⟨h1, Or.inr ?_⟩
        rcases h2 with h2 | ⟨c, hc⟩
        · have : kv.2 = s := by
            simpa using h2
          exact ⟨kv.1, by rw [← this]; exact List.mem_cons_self _ _⟩
        · exact ⟨c, List.mem_cons_of_mem _ hc⟩
    · have hstep : reference_step acc kv = acc := by
        simp [reference_step, hsel]
      obtain ⟨ih1, ih2, ih3, ih4⟩ := ih acc hinv
      rw [List.foldl_cons, hstep]
      refine ⟨ih1, ?_, ih3, ?_⟩
      · intro kv2 hmem
        rcases List.mem_cons.mp hmem with h | h
        · subst h; exact le_trans (not_lt.mp hsel) ih1
        · exact ih2 kv2 h
      · intro s hs
        obtain ⟨h1, h2⟩ := ih4 s hs
        refine ⟨h1, ?_⟩
        rcases h2 with h2 | ⟨c, hc⟩
        · exact Or.inl h2
        · exact Or.inr ⟨c, List.mem_cons_of_mem _ hc⟩

/-- C10 counterexample.  With channel C02 absent and a single loaded channel
whose native array is empty (shape (0, 1), zero pixels), the scan never
selects a shape, because selection requires a pixel count strictly greater
than the initial maximum of zero, so the reference shape is None rather than
the greatest-pixel-count native shape (0, 1) the claim asserts. -/
theorem c10_counterexample :
    reference_shape [("C05", (0, 1))] = none ∧
    reference_shape [("C05", (0, 1))] ≠ some (0, 1) := by
  have h : reference_shape [("C05", (0, 1))] = none := rfl
  exact ⟨h, by rw [h]; simp⟩

/-- C10 amended.  On every processing path the reference shape is the native
shape of channel C02 whenever C02 was loaded; otherwise, if every loaded
channel has zero pixels the reference shape stays None, any selected
reference shape is a loaded native shape of maximal pixel count, and a shape
is selected whenever some loaded channel has a positive pixel count. -/
theorem c10_reference_shape (store : List (String × Nat × Nat)) :
    (∀ s, store.lookup "C02" = some s → reference_shape store = some s) ∧
    (store.lookup "C02" = none →
      ((∀ kv ∈ store, kv.2.1 * kv.2.2 = 0) → reference_shape store = none) ∧
      (∀ s, reference_shape store = some s →
        (∃ c, (c, s) ∈ store) ∧ ∀ kv ∈ store, kv.2.1 * kv.2.2 ≤ s.1 * s.2) ∧
      ((∃ kv ∈ store, 0 < kv.2.1 * kv.2.2) →
        ∃ s, reference_shape store = some s)) := by
  constructor
  · intro s hs
    simp [reference_shape, hs]
  · intro hno
    have hinv : ∀ s, ((0, none) : Nat × Option (Nat × Nat)).2 = some s →
        ((0, none) : Nat × Option (Nat × Nat)).1 = s.1 * s.2 := by
      intro s hs
      cases hs
    obtain ⟨h1, h2, h3, h4⟩ := reference_fold_spec store (0, none) hinv
    have href : reference_shape store = (store.foldl reference_step (0, none)).2 := by
      simp [reference_shape, hno]
    refine ⟨?_, ?_, ?_⟩
    · intro hzero
      rw [href]
      have : store.foldl reference_step (0, none) = (0, none) :=
        reference_fold_frozen store (0, none)
          (fun kv hkv => le_of_eq (hzero kv hkv))
      rw [this]
    · intro s hs
      rw [href] at hs
      obtain ⟨hmax, hfrom⟩ := h4 s hs
      refine ⟨?_, ?_⟩
      · rcases hfrom with h | h
        · cases h
        · exact h
      · intro kv hkv
        exact hmax ▸ h2 kv hkv
    · intro ⟨kv, hkv, hpos⟩
      rw [href]
      cases hres : (store.foldl reference_step (0, none)).2 with
      | some s => exact ⟨s, rfl⟩
      | none =>
        have heq := h3 hres
        have := h2 kv hkv
        rw [heq] at this
        omega

/-- Witness for c10_reference_shape: the C02 shape wins when C02 is loaded,
and without C02 the selected shape is a loaded shape of maximal pixel
count. -/
theorem c10_reference_shape_witness :
    reference_shape [("C02", (3, 4)), ("C13", (9, 9))] = some (3, 4) ∧
    ((∃ c, (c, ((2, 2) : Nat × Nat)) ∈ [("C13", (2, 2)), ("C01", (1, 1))]) ∧
      ∀ kv ∈ [("C13", (2, 2)), ("C01", (1, 1))], kv.2.1 * kv.2.2 ≤ 2 * 2) :=
  ⟨(c10_reference_shape [("C02", (3, 4)), ("C13", (9, 9))]).1 (3, 4) rfl,
   ((c10_reference_shape [("C13", (2, 2)), ("C01", (1, 1))]).2 rfl).2.1 (2, 2) rfl⟩

end ColorPlus
